import Mathlib

/-!
Verification of the transaction broadcast engine in
`crates/forge/bin/cmd/script/broadcast.rs`.

The Rust code is shallowly embedded: every RPC interaction is a field of an
`Env` record (a `none` result models a failed call), `eyre` errors and panics
are the constructors of `Err`, and each modelled function returns its result
in `Except Err` together with the ordered list of external calls it made.
Machine integers (`u64`, `U256`) are modelled by `Nat`; the one place where
the source performs an explicit width conversion (`u64::try_from` on the
transaction nonce) is modelled with an explicit `2 ^ 64` bound, and the
`U256` division that panics on a zero divisor is modelled with an explicit
branch.  Association lists stand for `HashMap`s (keys are distinct) and
`Finset` stands for `HashSet`.
-/

/-- Account addresses (`alloy_primitives::Address`), abstracted to `Nat`. -/
abbrev Address := Nat

/-- RPC endpoint URLs, compared only for equality in the source. -/
abbrev RpcUrl := String

/-- Transaction hashes, abstracted to `Nat`. -/
abbrev TxHash := Nat

/-- The shape of an `ethers` `TypedTransaction`: a legacy (gas-price)
transaction or an EIP-1559 (fee-market) transaction. -/
inductive TxType where
  | legacy : TxType
  | eip1559 : TxType
deriving DecidableEq, Repr

/-- An `ethers_core` `TypedTransaction`, flattened to one record with a shape
tag.  Optional fields model the `Option` accessors of the Rust type. -/
structure TypedTransaction where
  txType : TxType
  from' : Option Address
  to' : Option Address
  nonce : Option Nat
  gas : Option Nat
  gasPrice : Option Nat
  maxFeePerGas : Option Nat
  maxPriorityFeePerGas : Option Nat
  chainId : Option Nat
  data : Option (List Nat)
deriving DecidableEq, Repr

/-- `TypedTransaction::gas_price` of `ethers-core`: the gas price of a legacy
transaction, the max fee of a fee-market transaction. -/
def TypedTransaction.gas_price' (t : TypedTransaction) : Option Nat :=
  match t.txType with
  | .legacy => t.gasPrice
  | .eip1559 => t.maxFeePerGas

/-- `TypedTransaction::max_cost` of `ethers-core`: gas limit times price,
when both are present. -/
def TypedTransaction.max_cost (t : TypedTransaction) : Option Nat :=
  match t.gas, t.gas_price' with
  | some g, some p => some (g * p)
  | _, _ => none

/-- `TypedTransaction::set_gas_price` of `ethers-core`: on a legacy
transaction it sets the gas price, on a fee-market transaction it sets both
the max fee and the max priority fee. -/
def TypedTransaction.set_gas_price (t : TypedTransaction) (p : Nat) : TypedTransaction :=
  match t.txType with
  | .legacy => { t with gasPrice := some p }
  | .eip1559 => { t with maxFeePerGas := some p, maxPriorityFeePerGas := some p }

/-- Zksync metadata attached to a transaction (`ZkTransaction`). -/
structure ZkTransaction where
  factory_deps : List (List Nat)
deriving DecidableEq, Repr

/-- `TransactionWithMetadata`: a typed transaction plus the rpc endpoint it
targets, the fixed-gas-limit flag and optional zksync metadata. -/
structure TransactionWithMetadata where
  transaction : TypedTransaction
  rpc : Option RpcUrl
  is_fixed_gas_limit : Bool
  zk : Option ZkTransaction
deriving DecidableEq, Repr

/-- A mined transaction receipt; only the fields read by the summary fold of
`send_transactions` are modelled. -/
structure Receipt where
  gas_used : Option Nat
  effective_gas_price : Option Nat
deriving DecidableEq, Repr

/-- `ScriptSequence`: the per-chain ordered transaction list with its parallel
receipt and pending-hash lists. -/
structure ScriptSequence where
  transactions : List TransactionWithMetadata
  receipts : List Receipt
  pending : List TxHash
deriving DecidableEq, Repr

/-- A local signing wallet (`WalletSigner`); only its configured chain id is
observable in the modelled code. -/
structure WalletSigner where
  chain_id : Nat
deriving DecidableEq, Repr

/-- A provider's cached information (`ProviderInfo`): chain id, legacy
classification and the cached gas price (which may have failed to fetch). -/
structure ProviderInfo where
  chain : Nat
  is_legacy : Bool
  gas_price : Option Nat
deriving DecidableEq, Repr

/-- A transaction as produced by the simulation phase
(`BroadcastableTransaction`). -/
structure BroadcastableTransaction where
  transaction : TypedTransaction
  rpc : Option RpcUrl
  zk : Option ZkTransaction
deriving DecidableEq, Repr

/-- Failure modes: a Rust `panic!`/`expect`, an `eyre` error (`bail!` or
`wrap_err`), or a transport-level RPC failure. -/
inductive Err where
  | panic : String → Err
  | bail : String → Err
  | rpc : Err
deriving DecidableEq, Repr

/-- One observable external interaction of the engine. -/
inductive Call where
  | getChainId : Call
  | getGasPrice : Call
  | estimateEip1559Fees : Call
  | estimateGas : TypedTransaction → Call
  | nextNonce : Address → Call
  | sendTransaction : TypedTransaction → Call
  | sendRawTransaction : Call
  | zksEstimateFee : Call
  | signTransaction : TypedTransaction → Call
  | signTypedData : Call
deriving DecidableEq, Repr

/-- The external world: every RPC endpoint operation, signer operation and
chain-classification table the broadcast engine consults.  A `none` result
models a failing call.  `has_batch_support` and `has_different_gas_calc` are
the static chain-id tables of `foundry_cli::utils`; `clear_pendings`,
`save` and `onchain_simulation` model collaborators living outside the
embedded file (receipt polling, sequence persistence and the simulation
phase). -/
structure Env where
  get_chainid : Option Nat
  get_gas_price : Option Nat
  estimate_eip1559_fees : Option (Nat × Nat)
  estimate_gas : TypedTransaction → Option Nat
  next_nonce : Address → Option Nat
  send_transaction : TypedTransaction → Option TxHash
  send_raw_transaction : Option TxHash
  zks_estimateFee : Option (Nat × Nat × Nat)
  sign_transaction : WalletSigner → TypedTransaction → Option Nat
  sign_typed_data : WalletSigner → Option Nat
  has_batch_support : Nat → Bool
  has_different_gas_calc : Nat → Bool
  get_or_init : RpcUrl → Bool → Option ProviderInfo
  clear_pendings : ScriptSequence → Option ScriptSequence
  save : Option Unit
  onchain_simulation : List BroadcastableTransaction → Option (List TransactionWithMetadata)

/-- The CLI flags and options the broadcast engine reads (`ScriptArgs`
together with the `evm_opts` fields it consults). -/
structure ScriptArgs where
  unlocked : Bool
  slow : Bool
  broadcast : Bool
  skip_simulation : Bool
  legacy : Bool
  verify : Bool
  sender : Option Address
  with_gas_price : Option Nat
  priority_gas_price : Option Nat
  gas_estimate_multiplier : Nat
  fork_url : Option RpcUrl
deriving DecidableEq, Repr

/-- `ScriptArgs::estimate_gas`: clears any previously set gas limit (some
endpoints echo a supplied value back), asks the endpoint for an estimate on
the cleared transaction, and sets the gas limit to
`estimate * gas_estimate_multiplier / 100` (integer division). -/
def estimate_gas (args : ScriptArgs) (env : Env) (tx : TypedTransaction) :
    Except Err TypedTransaction × List Call :=
  let cleared := { tx with gas := none }
  match env.estimate_gas cleared with
  | none => (.error (.bail "Failed to estimate gas for tx"), [.estimateGas cleared])
  | some e =>
      (.ok { cleared with gas := some (e * args.gas_estimate_multiplier / 100) },
        [.estimateGas cleared])

/-- C7: for every transaction and every estimate `e` the endpoint returns,
`estimate_gas` clears the previously set gas limit (the estimation RPC sees a
transaction without a gas limit) and then sets the gas limit to
`e * gas_estimate_multiplier / 100` with integer division. -/
theorem estimate_gas_clears_then_scales
    (args : ScriptArgs) (env : Env) (tx : TypedTransaction) (e : Nat)
    (h : env.estimate_gas { tx with gas := none } = some e) :
    estimate_gas args env tx =
      (.ok { tx with gas := some (e * args.gas_estimate_multiplier / 100) },
        [Call.estimateGas { tx with gas := none }]) := by
  unfold estimate_gas
  simp only [h]

/-- A baseline flag configuration for concrete instantiations: no special
flag set, gas estimate multiplier at its 130 percent default. -/
def sampleArgs : ScriptArgs where
  unlocked := false
  slow := false
  broadcast := true
  skip_simulation := false
  legacy := false
  verify := false
  sender := none
  with_gas_price := none
  priority_gas_price := none
  gas_estimate_multiplier := 130
  fork_url := none

/-- A baseline environment for concrete instantiations: every call succeeds
with small fixed values, every chain supports batching and has the ordinary
gas calculation. -/
def sampleEnv : Env where
  get_chainid := some 1
  get_gas_price := some 7
  estimate_eip1559_fees := some (9, 3)
  estimate_gas := fun _ => some 1000
  next_nonce := fun _ => some 0
  send_transaction := fun _ => some 55
  send_raw_transaction := some 66
  zks_estimateFee := some (1, 2, 3)
  sign_transaction := fun _ _ => some 77
  sign_typed_data := fun _ => some 88
  has_batch_support := fun _ => true
  has_different_gas_calc := fun _ => false
  get_or_init := fun _ _ => none
  clear_pendings := fun s => some s
  save := some ()
  onchain_simulation := fun _ => none

/-- A concrete legacy transaction used by the concrete instantiations. -/
def txLegacy : TypedTransaction where
  txType := .legacy
  from' := some 1
  to' := some 2
  nonce := some 0
  gas := some 21000
  gasPrice := some 1
  maxFeePerGas := none
  maxPriorityFeePerGas := none
  chainId := none
  data := some []

/-- Witness for C7: with a multiplier of 130 and an estimate of 1000 on a
concrete transaction, the gas limit becomes 1300 and the estimation call sees
no gas limit. -/
theorem estimate_gas_clears_then_scales_witness :
    estimate_gas sampleArgs sampleEnv txLegacy =
      (.ok { txLegacy with gas := some 1300 },
        [Call.estimateGas { txLegacy with gas := none }]) :=
  estimate_gas_clears_then_scales sampleArgs sampleEnv txLegacy 1000 rfl

/-- `SendTransactionKind`: how to send a single transaction — via an
unlocked endpoint account, or signed locally by a wallet. -/
inductive SendTransactionKind where
  | Unlocked : Address → SendTransactionKind
  | Raw : WalletSigner → SendTransactionKind
deriving DecidableEq, Repr

/-- `SendTransactionsKind`: how to send all transactions — the set of
unlocked sender addresses, or the map from sender address to local wallet
(an association list with distinct keys, standing for the `HashMap`). -/
inductive SendTransactionsKind where
  | Unlocked : Finset Address → SendTransactionsKind
  | Raw : List (Address × WalletSigner) → SendTransactionsKind
deriving DecidableEq

/-- `SendTransactionsKind::for_sender`: the per-transaction kind for a given
sender, failing when the address is not unlocked or has no signer. -/
def SendTransactionsKind.for_sender :
    SendTransactionsKind → Address → Except Err SendTransactionKind
  | .Unlocked unlockedSenders, addr =>
      if addr ∈ unlockedSenders then .ok (.Unlocked addr)
      else .error (.bail "Sender address is not unlocked")
  | .Raw wallets, addr =>
      match wallets.lookup addr with
      | some wallet => .ok (.Raw wallet)
      | none => .error (.bail "No matching signer found")

/-- `SendTransactionsKind::signers_count`: how many signers are set. -/
def SendTransactionsKind.signers_count : SendTransactionsKind → Nat
  | .Unlocked addrs => addrs.card
  | .Raw signers => signers.length

/-- The `sequential_broadcast` decision of `send_transactions`: sequential
when the signer count differs from one, the user passed `--slow`, or the
chain has no batch support. -/
def sequential_broadcast (args : ScriptArgs) (env : Env)
    (send_kind : SendTransactionsKind) (chain : Nat) : Bool :=
  send_kind.signers_count != 1 || args.slow || !(env.has_batch_support chain)

/-- The part of `ScriptArgs::broadcast` after the gas re-estimation block:
sign the transaction (via EIP-712 structured signing when zksync metadata is
present, plain RLP signing otherwise) and submit the raw payload. -/
def broadcast_signed (env : Env) (signer : WalletSigner)
    (legacy_or_1559 : TypedTransaction) (zk : Option ZkTransaction) :
    Except Err TxHash × List Call :=
  match zk with
  | some _ =>
      if legacy_or_1559.from'.isSome && legacy_or_1559.to'.isSome &&
          legacy_or_1559.chainId.isSome && legacy_or_1559.nonce.isSome &&
          legacy_or_1559.gas_price'.isSome && legacy_or_1559.max_cost.isSome &&
          legacy_or_1559.data.isSome then
        match env.get_gas_price with
        | none => (.error .rpc, [.getGasPrice])
        | some _ =>
            match env.zks_estimateFee with
            | none => (.error (.panic "zks_estimateFee"), [.getGasPrice, .zksEstimateFee])
            | some _ =>
                match env.sign_typed_data signer with
                | none =>
                    (.error (.bail "Failed to sign typed data"),
                      [.getGasPrice, .zksEstimateFee, .signTypedData])
                | some _ =>
                    match env.send_raw_transaction with
                    | none =>
                        (.error .rpc,
                          [.getGasPrice, .zksEstimateFee, .signTypedData, .sendRawTransaction])
                    | some h =>
                        (.ok h,
                          [.getGasPrice, .zksEstimateFee, .signTypedData, .sendRawTransaction])
      else (.error (.panic "missing field in zksync deploy request"), [])
  | none =>
      match env.sign_transaction signer legacy_or_1559 with
      | none =>
          (.error (.bail "Failed to sign transaction"), [.signTransaction legacy_or_1559])
      | some _ =>
          match env.send_raw_transaction with
          | none => (.error .rpc, [.signTransaction legacy_or_1559, .sendRawTransaction])
          | some h => (.ok h, [.signTransaction legacy_or_1559, .sendRawTransaction])

/-- `ScriptArgs::broadcast`: when the signer's chain has a different gas
calculation or `--skip-simulation` was passed, remove the gas limit and
re-estimate it right before signing; then sign and submit the raw
transaction. -/
def broadcast (args : ScriptArgs) (env : Env) (signer : WalletSigner)
    (legacy_or_1559 : TypedTransaction) (zk : Option ZkTransaction) :
    Except Err TxHash × List Call :=
  if env.has_different_gas_calc signer.chain_id || args.skip_simulation then
    match estimate_gas args env { legacy_or_1559 with gas := none } with
    | (.error e, t) => (.error e, t)
    | (.ok tx2, t) =>
        let sent := broadcast_signed env signer tx2 zk
        (sent.1, t ++ sent.2)
  else broadcast_signed env signer legacy_or_1559 zk

/-- The dispatch on the send kind inside `ScriptArgs::send_transaction`: an
unlocked send re-estimates gas when the flag `is_fixed_gas_limit` is unset
and the provider's chain has a different gas calculation or
`--skip-simulation` was passed, then submits via `eth_sendTransaction`; a
raw send defers to `broadcast`. -/
def send_transaction_dispatch (args : ScriptArgs) (env : Env) (tx : TypedTransaction)
    (zk : Option ZkTransaction) (kind : SendTransactionKind) (is_fixed_gas_limit : Bool) :
    Except Err TxHash × List Call :=
  match kind with
  | .Unlocked _ =>
      if is_fixed_gas_limit then
        match env.send_transaction tx with
        | none => (.error .rpc, [.sendTransaction tx])
        | some h => (.ok h, [.sendTransaction tx])
      else
        match env.get_chainid with
        | none => (.error .rpc, [.getChainId])
        | some chain =>
            if env.has_different_gas_calc chain || args.skip_simulation then
              match estimate_gas args env tx with
              | (.error e, t) => (.error e, .getChainId :: t)
              | (.ok tx2, t) =>
                  match env.send_transaction tx2 with
                  | none => (.error .rpc, .getChainId :: t ++ [.sendTransaction tx2])
                  | some h => (.ok h, .getChainId :: t ++ [.sendTransaction tx2])
            else
              match env.send_transaction tx with
              | none => (.error .rpc, [.getChainId, .sendTransaction tx])
              | some h => (.ok h, [.getChainId, .sendTransaction tx])
  | .Raw signer => broadcast args env signer tx zk

/-- The sequential-mode pre-submit nonce check of
`ScriptArgs::send_transaction`: query the endpoint's next nonce for the
sender; when the transaction nonce fits in 64 bits and differs from the
reported nonce, fail.  Mirrors the `u64::try_from` guard of the source: a
nonce outside `u64` skips the comparison. -/
def nonce_check (env : Env) (fromAddr : Address) (tx : TypedTransaction) :
    Except Err Unit × List Call :=
  match env.next_nonce fromAddr with
  | none => (.error (.bail "Not able to query the EOA nonce."), [.nextNonce fromAddr])
  | some nonce =>
      match tx.nonce with
      | none => (.error (.panic "no nonce"), [.nextNonce fromAddr])
      | some tx_nonce =>
          if tx_nonce < 2 ^ 64 then
            if nonce ≠ tx_nonce then
              (.error (.bail "EOA nonce changed unexpectedly while sending transactions"),
                [.nextNonce fromAddr])
            else (.ok (), [.nextNonce fromAddr])
          else (.ok (), [.nextNonce fromAddr])

/-- `ScriptArgs::send_transaction`: in sequential mode first run the nonce
check, then dispatch on the send kind. -/
def send_transaction (args : ScriptArgs) (env : Env) (tx : TypedTransaction)
    (zk : Option ZkTransaction) (kind : SendTransactionKind) (sequential : Bool)
    (is_fixed_gas_limit : Bool) : Except Err TxHash × List Call :=
  match tx.from' with
  | none => (.error (.panic "no sender"), [])
  | some fromAddr =>
      if sequential then
        match nonce_check env fromAddr tx with
        | (.error e, t) => (.error e, t)
        | (.ok _, t) =>
            let sent := send_transaction_dispatch args env tx zk kind is_fixed_gas_limit
            (sent.1, t ++ sent.2)
      else send_transaction_dispatch args env tx zk kind is_fixed_gas_limit

/-- C1: inside `send_transactions`, broadcasting is sequential exactly when
the signer count differs from 1, or the user passed `--slow`, or the chain
does not support batched transactions; otherwise submission is parallel.
Quantified over every resolved send kind (hence every signer map or unlocked
sender set), chain id, flag configuration and chain-support table. -/
theorem sequential_broadcast_iff (args : ScriptArgs) (env : Env)
    (send_kind : SendTransactionsKind) (chain : Nat) :
    sequential_broadcast args env send_kind chain = true ↔
      (send_kind.signers_count ≠ 1 ∨ args.slow = true ∨
        env.has_batch_support chain = false) := by
  unfold sequential_broadcast
  rcases h : env.has_batch_support chain <;> rcases hs : args.slow <;>
    simp [bne_iff_ne]

/-- C2 as stated: whenever a transaction is sent in sequential mode and its
nonce differs from the endpoint's reported next nonce, `send_transaction`
fails with the nonce-drift error and issues neither `eth_sendTransaction`
nor `eth_sendRawTransaction`. -/
def nonce_drift_claim : Prop :=
  ∀ (args : ScriptArgs) (env : Env) (tx : TypedTransaction) (zk : Option ZkTransaction)
    (kind : SendTransactionKind) (fixed : Bool) (a : Address) (n m : Nat),
    tx.from' = some a → env.next_nonce a = some n → tx.nonce = some m → m ≠ n →
    (send_transaction args env tx zk kind true fixed).1 =
        .error (.bail "EOA nonce changed unexpectedly while sending transactions") ∧
      ∀ c ∈ (send_transaction args env tx zk kind true fixed).2,
        (∀ t, c ≠ Call.sendTransaction t) ∧ c ≠ Call.sendRawTransaction

/-- C2 counterexample: with a transaction nonce of `2 ^ 64` (outside `u64`)
and a reported next nonce of `0`, the `u64::try_from` guard of the source
skips the comparison, so the transaction is submitted successfully even
though the two nonces differ. -/
theorem nonce_drift_claim_counterexample : ¬ nonce_drift_claim := by
  intro h
  have h1 := (h sampleArgs { sampleEnv with next_nonce := fun _ => some 0 }
      { txLegacy with nonce := some (2 ^ 64) } none (.Unlocked 1) true 1 0 (2 ^ 64)
      rfl rfl rfl (by decide)).1
  have h2 : (send_transaction sampleArgs { sampleEnv with next_nonce := fun _ => some 0 }
      { txLegacy with nonce := some (2 ^ 64) } none (.Unlocked 1) true true).1 =
      .ok 55 := rfl
  rw [h2] at h1
  exact Except.noConfusion h1

/-- C2 amended: in sequential mode `send_transaction` first queries the
endpoint's next nonce for the sender (it is the first external call), and
when the transaction's nonce fits in 64 bits and differs from the reported
next nonce it fails with the nonce-drift error having made no further call
(in particular no submission call). -/
theorem send_transaction_nonce_drift (args : ScriptArgs) (env : Env)
    (tx : TypedTransaction) (zk : Option ZkTransaction) (kind : SendTransactionKind)
    (fixed : Bool) (a : Address) (n m : Nat)
    (hf : tx.from' = some a) (hn : env.next_nonce a = some n) (ht : tx.nonce = some m) :
    (send_transaction args env tx zk kind true fixed).2.head? = some (.nextNonce a) ∧
      (m < 2 ^ 64 → m ≠ n →
        send_transaction args env tx zk kind true fixed =
          (.error (.bail "EOA nonce changed unexpectedly while sending transactions"),
            [.nextNonce a])) := by
  have hstep : send_transaction args env tx zk kind true fixed =
      (match nonce_check env a tx with
        | (.error e, t) => (.error e, t)
        | (.ok _, t) =>
            ((send_transaction_dispatch args env tx zk kind fixed).1,
              t ++ (send_transaction_dispatch args env tx zk kind fixed).2)) := by
    unfold send_transaction
    rw [hf]
    rfl
  have hcheck : nonce_check env a tx =
      (if m < 2 ^ 64 then
        (if n ≠ m then
          (.error (.bail "EOA nonce changed unexpectedly while sending transactions"),
            [.nextNonce a])
         else (.ok (), [.nextNonce a]))
       else (.ok (), [.nextNonce a])) := by
    unfold nonce_check
    rw [hn, ht]
  rw [hstep, hcheck]
  by_cases h1 : m < 2 ^ 64
  · rw [if_pos h1]
    by_cases h2 : n ≠ m
    · rw [if_pos h2]
      exact ⟨rfl, fun _ _ => rfl⟩
    · rw [if_neg h2]
      exact ⟨rfl, fun _ hmn => absurd (not_not.mp h2).symm hmn⟩
  · rw [if_neg h1]
    exact ⟨rfl, fun h1' _ => absurd h1' h1⟩

/-- Witness for C2 amended: a concrete sequential send whose transaction
nonce 5 differs from the reported next nonce 7 fails with the drift error
after the single nonce query. -/
theorem send_transaction_nonce_drift_witness :
    send_transaction sampleArgs { sampleEnv with next_nonce := fun _ => some 7 }
        { txLegacy with nonce := some 5 } none (.Unlocked 1) true false =
      (.error (.bail "EOA nonce changed unexpectedly while sending transactions"),
        [.nextNonce 1]) :=
  (send_transaction_nonce_drift sampleArgs { sampleEnv with next_nonce := fun _ => some 7 }
      { txLegacy with nonce := some 5 } none (.Unlocked 1) false 1 7 5 rfl rfl rfl).2
    (by decide) (by decide)

/-- Helper: the signing-and-submission tail of `broadcast` never performs a
gas estimation call. -/
theorem estimateGas_not_mem_broadcast_signed (env : Env) (signer : WalletSigner)
    (tx : TypedTransaction) (zk : Option ZkTransaction) (t : TypedTransaction) :
    Call.estimateGas t ∉ (broadcast_signed env signer tx zk).2 := by
  unfold broadcast_signed
  rcases zk with _ | z
  · rcases h1 : env.sign_transaction signer tx with _ | s
    · simp [h1]
    · rcases h2 : env.send_raw_transaction with _ | h
      · simp [h1, h2]
      · simp [h1, h2]
  · by_cases hz : (tx.from'.isSome && tx.to'.isSome && tx.chainId.isSome && tx.nonce.isSome &&
        tx.gas_price'.isSome && tx.max_cost.isSome && tx.data.isSome) = true
    · rcases h1 : env.get_gas_price with _ | gp
      · simp [hz, h1]
      · rcases h2 : env.zks_estimateFee with _ | fee
        · simp [hz, h1, h2]
        · rcases h3 : env.sign_typed_data signer with _ | sg
          · simp [hz, h1, h2, h3]
          · rcases h4 : env.send_raw_transaction with _ | h
            · simp [hz, h1, h2, h3, h4]
            · simp [hz, h1, h2, h3, h4]
    · simp [hz]

/-- C3 as stated: in the Raw signing path of `send_transaction`, a gas
re-estimation happens exactly when the chain has a different gas calculation
or `--skip-simulation` is set, and additionally the transaction's
`is_fixed_gas_limit` flag is not set (the same condition as the Unlocked
path). -/
def raw_reestimation_claim : Prop :=
  ∀ (args : ScriptArgs) (env : Env) (signer : WalletSigner) (tx : TypedTransaction)
    (zk : Option ZkTransaction) (fixed : Bool),
    (∃ t, Call.estimateGas t ∈
        (send_transaction_dispatch args env tx zk (.Raw signer) fixed).2) ↔
      ((env.has_different_gas_calc signer.chain_id = true ∨ args.skip_simulation = true) ∧
        fixed = false)

/-- C3 counterexample: on a different-gas-calc chain with
`is_fixed_gas_limit` set, the Raw path still re-estimates gas — unlike the
Unlocked path, `broadcast` never consults the flag. -/
theorem raw_reestimation_claim_counterexample : ¬ raw_reestimation_claim := by
  intro h
  have h1 := (h sampleArgs { sampleEnv with has_different_gas_calc := fun _ => true }
      ⟨1⟩ txLegacy none true).mp ⟨{ txLegacy with gas := none }, by decide⟩
  exact absurd h1.2 (by decide)

/-- C3 amended: in the Raw signing path, gas is re-estimated immediately
before signing exactly when the signer's chain has a different gas
calculation or `--skip-simulation` is set, irrespective of
`is_fixed_gas_limit`; the prior gas limit is removed before the estimation
call (the call sees a transaction without a gas limit). -/
theorem raw_reestimation (args : ScriptArgs) (env : Env) (signer : WalletSigner)
    (tx : TypedTransaction) (zk : Option ZkTransaction) :
    ((env.has_different_gas_calc signer.chain_id || args.skip_simulation) = true →
      ∃ rest, (broadcast args env signer tx zk).2 =
        Call.estimateGas { tx with gas := none } :: rest) ∧
    ((env.has_different_gas_calc signer.chain_id || args.skip_simulation) = false →
      ∀ t, Call.estimateGas t ∉ (broadcast args env signer tx zk).2) := by
  constructor
  · intro hc
    unfold broadcast
    rw [hc]
    rcases he : env.estimate_gas { tx with gas := none } with _ | e
    · exact ⟨[], by simp [estimate_gas, he]⟩
    · refine ⟨(broadcast_signed env signer
        { tx with gas := some (e * args.gas_estimate_multiplier / 100) } zk).2, ?_⟩
      simp [estimate_gas, he]
  · intro hc t
    unfold broadcast
    rw [hc]
    simp only [Bool.false_eq_true, if_false]
    exact estimateGas_not_mem_broadcast_signed env signer tx zk t

/-- Witness for C3 amended: concrete instantiations of both directions — on
a different-gas-calc chain the trace of `broadcast` starts with a gas
estimation on the gas-cleared transaction, and on an ordinary chain without
`--skip-simulation` no estimation call appears. -/
theorem raw_reestimation_witness :
    (∃ rest, (broadcast sampleArgs { sampleEnv with has_different_gas_calc := fun _ => true }
        ⟨1⟩ txLegacy none).2 =
        Call.estimateGas { txLegacy with gas := none } :: rest) ∧
      (∀ t, Call.estimateGas t ∉ (broadcast sampleArgs sampleEnv ⟨1⟩ txLegacy none).2) :=
  ⟨(raw_reestimation sampleArgs { sampleEnv with has_different_gas_calc := fun _ => true }
      ⟨1⟩ txLegacy none).1 (by decide),
   (raw_reestimation sampleArgs sampleEnv ⟨1⟩ txLegacy none).2 (by decide)⟩

/-- The one-time fee snapshot of `send_transactions`: the source matches on
the shape of `deployment_sequence.transactions.front()` — the first
transaction of the whole sequence — querying the EIP-1559 fee pair for a
fee-market shape and the gas price (errors swallowed to `none`) otherwise. -/
def fee_snapshot (env : Env) (seq : ScriptSequence) :
    Except Err (Option Nat × Option (Nat × Nat)) × List Call :=
  match seq.transactions.head? with
  | none => (.error (.panic "front"), [])
  | some twm =>
      match twm.transaction.txType with
      | .eip1559 =>
          match env.estimate_eip1559_fees with
          | none =>
              (.error (.bail "Failed to estimate EIP1559 fees"), [.estimateEip1559Fees])
          | some fees => (.ok (none, some fees), [.estimateEip1559Fees])
      | .legacy => (.ok (env.get_gas_price, none), [.getGasPrice])

/-- The fee snapshot determined by a given transaction shape: the EIP-1559
fee pair for a fee-market shape, the cached gas price otherwise. -/
def fee_snapshot_of_shape (env : Env) (shape : TxType) :
    Except Err (Option Nat × Option (Nat × Nat)) × List Call :=
  match shape with
  | .eip1559 =>
      match env.estimate_eip1559_fees with
      | none => (.error (.bail "Failed to estimate EIP1559 fees"), [.estimateEip1559Fees])
      | some fees => (.ok (none, some fees), [.estimateEip1559Fees])
  | .legacy => (.ok (env.get_gas_price, none), [.getGasPrice])

/-- C4 as stated: the one-time fee snapshot is chosen according to the shape
of the first transaction of the tail still to broadcast, i.e. the first
transaction after skipping the `receipts.length` already-mined prefix. -/
def fee_snapshot_claim : Prop :=
  ∀ (env : Env) (seq : ScriptSequence) (twm : TransactionWithMetadata),
    (seq.transactions.drop seq.receipts.length).head? = some twm →
    fee_snapshot env seq = fee_snapshot_of_shape env twm.transaction.txType

/-- A concrete EIP-1559 transaction used by the concrete instantiations. -/
def tx1559 : TypedTransaction where
  txType := .eip1559
  from' := some 1
  to' := some 2
  nonce := some 1
  gas := some 21000
  gasPrice := none
  maxFeePerGas := some 10
  maxPriorityFeePerGas := some 2
  chainId := none
  data := some []

/-- Wraps a typed transaction in metadata targeting an optional endpoint. -/
def withMeta (t : TypedTransaction) (r : Option RpcUrl) : TransactionWithMetadata where
  transaction := t
  rpc := r
  is_fixed_gas_limit := false
  zk := none

/-- C4 counterexample: a sequence whose mined prefix is a legacy transaction
and whose tail starts with a fee-market transaction.  The source snapshots
from the front of the whole sequence (a legacy shape, so it queries the gas
price), while the claim requires the fee-market pair of the tail's first
transaction. -/
theorem fee_snapshot_claim_counterexample : ¬ fee_snapshot_claim := by
  intro h
  have h1 := h sampleEnv
      { transactions := [withMeta txLegacy none, withMeta tx1559 none],
        receipts := [⟨some 1, some 1⟩], pending := [3] }
      (withMeta tx1559 none) rfl
  have h2 : fee_snapshot sampleEnv
      { transactions := [withMeta txLegacy none, withMeta tx1559 none],
        receipts := [⟨some 1, some 1⟩], pending := [3] } =
      (.ok (some 7, none), [.getGasPrice]) := rfl
  have h3 : fee_snapshot_of_shape sampleEnv (withMeta tx1559 none).transaction.txType =
      (.ok (none, some (9, 3)), [.estimateEip1559Fees]) := rfl
  rw [h2, h3] at h1
  simp at h1

/-- C4 amended: the one-time fee snapshot is chosen according to the shape
of the first transaction of the whole sequence (index 0), even when an
already-mined prefix exists. -/
theorem fee_snapshot_uses_front (env : Env) (seq : ScriptSequence)
    (twm : TransactionWithMetadata) (h : seq.transactions.head? = some twm) :
    fee_snapshot env seq = fee_snapshot_of_shape env twm.transaction.txType := by
  unfold fee_snapshot fee_snapshot_of_shape
  rw [h]

/-- Witness for C4 amended: on the counterexample sequence the snapshot is
the gas-price snapshot of the front (legacy) transaction. -/
theorem fee_snapshot_uses_front_witness :
    fee_snapshot sampleEnv
        { transactions := [withMeta txLegacy none, withMeta tx1559 none],
          receipts := [⟨some 1, some 1⟩], pending := [3] } =
      fee_snapshot_of_shape sampleEnv (withMeta txLegacy none).transaction.txType :=
  fee_snapshot_uses_front sampleEnv _ (withMeta txLegacy none) rfl

/-- The distinct senders required by the not-yet-broadcast tail of a
sequence (the source's `required_addresses` `HashSet`), failing with the
source's panic when a tail transaction has no sender. -/
def required_addresses (seq : ScriptSequence) (already : Nat) :
    Except Err (Finset Address) :=
  let tail := seq.transactions.drop already
  if tail.all (fun t => t.transaction.from'.isSome) then
    .ok (tail.filterMap (fun t => t.transaction.from')).toFinset
  else .error (.panic "No sender for onchain transaction!")

/-- The distinct `from` addresses appearing anywhere in the sequence
(the source's `filter_map` over all `typed_transactions()`). -/
def all_senders (seq : ScriptSequence) : Finset Address :=
  (seq.transactions.filterMap (fun t => t.transaction.from')).toFinset

/-- Foundry's default sender address. -/
def DEFAULT_SENDER : Address := 0x1804c8AB1F12E6bbf3894d4083f33e07309d1f38

/-- The send-kind resolution of `send_transactions`:
with `--unlocked`, query the chain id, require `--sender`, and collect the
unlocked senders as the configured sender plus the `from` of every
transaction of the sequence; otherwise check that every tail sender has a
signer in the map (failing early when one is missing) and use the raw
signer map.  Returns the kind together with the queried chain id. -/
def resolve_send_kind (args : ScriptArgs) (env : Env) (seq : ScriptSequence)
    (signers : List (Address × WalletSigner)) :
    Except Err (SendTransactionsKind × Nat) × List Call :=
  match required_addresses seq seq.receipts.length with
  | .error e => (.error e, [])
  | .ok required =>
      if args.unlocked then
        match env.get_chainid with
        | none => (.error .rpc, [.getChainId])
        | some chain =>
            match args.sender with
            | none =>
                (.error (.bail "--sender must be set with --unlocked"), [.getChainId])
            | some s =>
                (.ok (.Unlocked (insert s (all_senders seq)), chain), [.getChainId])
      else
        let missing := required.filter (fun a => (signers.lookup a) = none)
        if missing ≠ ∅ then
          (.error (.bail "No associated wallet for addresses"), [])
        else
          match env.get_chainid with
          | none => (.error .rpc, [.getChainId])
          | some chain => (.ok (.Raw signers, chain), [.getChainId])

/-- C5 as stated: with `--unlocked` and a configured sender, the resolved
kind is Unlocked with sender set equal to the configured sender together
with the distinct `from` addresses of the not-yet-broadcast tail only. -/
def unlocked_senders_claim : Prop :=
  ∀ (args : ScriptArgs) (env : Env) (seq : ScriptSequence)
    (signers : List (Address × WalletSigner)) (s : Address)
    (kind : SendTransactionsKind) (chain : Nat),
    args.unlocked = true → args.sender = some s →
    (resolve_send_kind args env seq signers).1 = .ok (kind, chain) →
    kind = .Unlocked (insert s
      ((seq.transactions.drop seq.receipts.length).filterMap
        (fun t => t.transaction.from')).toFinset)

/-- A concrete sequence with a mined prefix from sender 1 and a tail from
sender 2. -/
def seqTwoSenders : ScriptSequence where
  transactions := [withMeta txLegacy none, withMeta { txLegacy with from' := some 2 } none]
  receipts := [⟨some 1, some 1⟩]
  pending := [3]

/-- C5 counterexample: a sequence with a mined prefix from sender 1 and a
tail from sender 2, with configured sender 0.  The source collects the
senders of every transaction, yielding the set with 0, 1 and 2, while the
claim requires only 0 and 2. -/
theorem unlocked_senders_claim_counterexample : ¬ unlocked_senders_claim := by
  intro h
  have h1 := h { sampleArgs with unlocked := true, sender := some 0 } sampleEnv
      seqTwoSenders [] 0 (.Unlocked (insert 0 (all_senders seqTwoSenders))) 1 rfl rfl rfl
  injection h1 with h1'
  exact absurd h1' (by decide)

/-- C5 amended: on a sequence whose tail transactions all carry a sender and
with the chain id query succeeding, `resolve_send_kind` behaves as follows:
with `--unlocked` it fails when `--sender` is unset, and otherwise resolves
to Unlocked with the configured sender together with the distinct `from`
addresses of all transactions of the sequence (mined prefix included);
without `--unlocked` it fails early when some tail sender has no signer, and
otherwise resolves to Raw with the signer map. -/
theorem resolve_send_kind_spec (args : ScriptArgs) (env : Env) (seq : ScriptSequence)
    (signers : List (Address × WalletSigner)) (c : Nat) (required : Finset Address)
    (hc : env.get_chainid = some c)
    (hr : required_addresses seq seq.receipts.length = .ok required) :
    (args.unlocked = true → args.sender = none →
      (resolve_send_kind args env seq signers).1 =
        .error (.bail "--sender must be set with --unlocked")) ∧
    (∀ s, args.unlocked = true → args.sender = some s →
      resolve_send_kind args env seq signers =
        (.ok (.Unlocked (insert s (all_senders seq)), c), [.getChainId])) ∧
    (args.unlocked = false →
      required.filter (fun a => (signers.lookup a) = none) ≠ ∅ →
      (resolve_send_kind args env seq signers).1 =
        .error (.bail "No associated wallet for addresses")) ∧
    (args.unlocked = false →
      required.filter (fun a => (signers.lookup a) = none) = ∅ →
      resolve_send_kind args env seq signers = (.ok (.Raw signers, c), [.getChainId])) := by
  unfold resolve_send_kind
  rw [hr, hc]
  refine ⟨?_, ?_, ?_, ?_⟩
  · intro hu hs
    rw [hu, hs]
    rfl
  · intro s hu hs
    rw [hu, hs]
    rfl
  · intro hu hm
    rw [hu]
    simp only [Bool.false_eq_true, if_false]
    rw [if_pos hm]
  · intro hu hm
    rw [hu]
    simp only [Bool.false_eq_true, if_false, ne_eq, hm, not_true_eq_false, if_neg,
      not_false_eq_true]

/-- Witness for C5 amended: on the two-sender sequence with `--unlocked` and
configured sender 0, the resolved kind is Unlocked with the senders of all
transactions. -/
theorem resolve_send_kind_spec_witness :
    resolve_send_kind { sampleArgs with unlocked := true, sender := some 0 } sampleEnv
        seqTwoSenders [] =
      (.ok (.Unlocked (insert 0 (all_senders seqTwoSenders)), 1), [.getChainId]) :=
  (resolve_send_kind_spec { sampleArgs with unlocked := true, sender := some 0 } sampleEnv
      seqTwoSenders [] 1
      ((seqTwoSenders.transactions.drop seqTwoSenders.receipts.length).filterMap
        (fun t : TransactionWithMetadata => t.transaction.from')).toFinset rfl rfl).2.1 0 rfl rfl

/-- Modelled from the spec: `TransactionWithMetadata::change_type` lives in
the transaction module, which is not part of the embedded file; per §4.8
(iii) of the specification it coerces the transaction shape to legacy when
the chain demands it and leaves it unchanged otherwise. -/
def TransactionWithMetadata.change_type (t : TransactionWithMetadata)
    (is_legacy : Bool) : TransactionWithMetadata :=
  if is_legacy then { t with transaction := { t.transaction with txType := .legacy } }
  else t

/-- The per-chain finalization `bundle_transactions` applies to each
transaction before any gas handling: coerce the shape for a legacy chain and
assign the provider's chain id. -/
def finalize_for_chain (tx : TransactionWithMetadata) (p : ProviderInfo) :
    TransactionWithMetadata :=
  { tx.change_type p.is_legacy with
      transaction := { (tx.change_type p.is_legacy).transaction with chainId := some p.chain } }

/-- The body of the `bundle_transactions` loop for one transaction with its
resolved endpoint: initialize the provider, coerce the shape, set the chain
id and — unless `--skip-simulation` — handle gas: on a different-gas-calc
chain re-estimate, restoring the prior value when the estimation fails
(pre-broadcast estimation is best effort); on other chains just require the
simulation-provided gas. -/
def bundle_step_core (args : ScriptArgs) (env : Env) (tx : TransactionWithMetadata)
    (tx_rpc : RpcUrl) : Except Err (TransactionWithMetadata × RpcUrl) :=
  match env.get_or_init tx_rpc args.legacy with
  | none => .error (.bail "provider init failed")
  | some p =>
      let tx2 := finalize_for_chain tx p
      if args.skip_simulation then .ok (tx2, tx_rpc)
      else
        if env.has_different_gas_calc p.chain then
          match tx2.transaction.gas with
          | none => .error (.panic "gas is set by simulation.")
          | some g =>
              match estimate_gas args env tx2.transaction with
              | (.error _, _) =>
                  .ok ({ tx2 with transaction := { tx2.transaction with gas := some g } },
                    tx_rpc)
              | (.ok t2, _) => .ok ({ tx2 with transaction := t2 }, tx_rpc)
        else
          match tx2.transaction.gas with
          | none => .error (.panic "gas is set")
          | some _ => .ok (tx2, tx_rpc)

/-- One iteration of the `bundle_transactions` loop: resolve the endpoint
(falling back to the CLI fork url and writing it into the transaction when
absent), then run the per-chain finalization and gas handling. -/
def bundle_step (args : ScriptArgs) (env : Env) (tx : TransactionWithMetadata) :
    Except Err (TransactionWithMetadata × RpcUrl) :=
  match tx.rpc with
  | some r => bundle_step_core args env tx r
  | none =>
      match args.fork_url with
      | none => .error (.bail "Missing fork url")
      | some r => bundle_step_core args env { tx with rpc := some r } r

/-- The peeking loop of `bundle_transactions`: process each transaction,
buffer it, and close the buffer into a sequence exactly when the next
transaction's `rpc` field differs from the current resolved endpoint or the
stream ends. -/
def bundle_go (args : ScriptArgs) (env : Env) :
    List TransactionWithMetadata → List TransactionWithMetadata →
    Except Err (List (List TransactionWithMetadata))
  | _, [] => .ok []
  | buf, [tx] =>
      match bundle_step args env tx with
      | .error e => .error e
      | .ok (tx', _) => .ok [buf ++ [tx']]
  | buf, tx :: next :: rest =>
      match bundle_step args env tx with
      | .error e => .error e
      | .ok (tx', tx_rpc) =>
          if next.rpc = some tx_rpc then bundle_go args env (buf ++ [tx']) (next :: rest)
          else
            match bundle_go args env [] (next :: rest) with
            | .error e => .error e
            | .ok gs => .ok ((buf ++ [tx']) :: gs)

/-- `ScriptArgs::bundle_transactions`: panic on an empty stream (the source
unwraps `transactions.back()`), run the peeking loop, and — unless
`--skip-simulation` — report per-endpoint gas totals, which fails when some
used provider has no gas price and no `--with-gas-price` override was
given. -/
def bundle_transactions (args : ScriptArgs) (env : Env)
    (transactions : List TransactionWithMetadata) :
    Except Err (List (List TransactionWithMetadata)) :=
  match transactions with
  | [] => .error (.panic "exists; qed")
  | _ :: _ =>
      match bundle_go args env [] transactions with
      | .error e => .error e
      | .ok gs =>
          if args.skip_simulation then .ok gs
          else if gs.flatten.all (fun t =>
              args.with_gas_price.isSome ||
                (match t.rpc with
                 | some r =>
                     match env.get_or_init r args.legacy with
                     | some p => p.gas_price.isSome
                     | none => false
                 | none => false)) then .ok gs
          else .error (.bail "could not get gas price")

/-- Maximal contiguous runs of elements sharing the value of `f`, in
order. -/
def runsBy {α β : Type} [DecidableEq β] (f : α → β) : List α → List (List α)
  | [] => []
  | [x] => [[x]]
  | x :: y :: xs =>
      match runsBy f (y :: xs) with
      | [] => [[x]]
      | g :: gs => if f x = f y then (x :: g) :: gs else [x] :: g :: gs

/-- Prepend a pending buffer onto the first block of a partition. -/
def consFirst {γ : Type} (b : List γ) : List (List γ) → List (List γ)
  | [] => [b]
  | g :: gs => (b ++ g) :: gs

theorem runsBy_ne_nil {α β : Type} [DecidableEq β] (f : α → β) (x : α) (l : List α) :
    runsBy f (x :: l) ≠ [] := by
  cases l with
  | nil => simp [runsBy]
  | cons y ys =>
      unfold runsBy
      rcases h : runsBy f (y :: ys) with _ | ⟨g, gs⟩
      · simp
      · by_cases hf : f x = f y <;> simp [hf]

theorem finalize_for_chain_rpc (tx : TransactionWithMetadata) (p : ProviderInfo) :
    (finalize_for_chain tx p).rpc = tx.rpc := by
  unfold finalize_for_chain TransactionWithMetadata.change_type
  rcases h : p.is_legacy <;> simp [h]

theorem estimate_gas_fail (args : ScriptArgs) (env : Env) (t : TypedTransaction)
    (h : env.estimate_gas { t with gas := none } = none) :
    estimate_gas args env t =
      (.error (.bail "Failed to estimate gas for tx"),
        [.estimateGas { t with gas := none }]) := by
  unfold estimate_gas
  simp only [h]


theorem bundle_step_core_rpc (args : ScriptArgs) (env : Env)
    (tx tx' : TransactionWithMetadata) (r r' : RpcUrl)
    (h : bundle_step_core args env tx r = .ok (tx', r')) :
    tx'.rpc = tx.rpc ∧ r' = r := by
  unfold bundle_step_core at h
  rcases hp : env.get_or_init r args.legacy with _ | p <;> simp only [hp] at h
  case none => exact Except.noConfusion h
  by_cases hs : args.skip_simulation = true
  · rw [if_pos hs] at h
    injection h with h1
    injection h1 with h2 h3
    refine ⟨?_, h3.symm⟩
    rw [← h2]
    exact finalize_for_chain_rpc tx p
  · rw [if_neg hs] at h
    by_cases hd : env.has_different_gas_calc p.chain = true
    · rw [if_pos hd] at h
      rcases hg : (finalize_for_chain tx p).transaction.gas with _ | g <;>
        simp only [hg] at h
      · exact Except.noConfusion h
      · rcases he : estimate_gas args env (finalize_for_chain tx p).transaction with ⟨res, tr⟩
        rcases res with e2 | t2 <;> simp only [he] at h
        · injection h with h1
          injection h1 with h2 h3
          refine ⟨?_, h3.symm⟩
          rw [← h2]
          exact finalize_for_chain_rpc tx p
        · injection h with h1
          injection h1 with h2 h3
          refine ⟨?_, h3.symm⟩
          rw [← h2]
          exact finalize_for_chain_rpc tx p
    · rw [if_neg hd] at h
      rcases hg : (finalize_for_chain tx p).transaction.gas with _ | g <;>
        simp only [hg] at h
      · exact Except.noConfusion h
      · injection h with h1
        injection h1 with h2 h3
        refine ⟨?_, h3.symm⟩
        rw [← h2]
        exact finalize_for_chain_rpc tx p

theorem bundle_step_rpc (args : ScriptArgs) (env : Env)
    (tx tx' : TransactionWithMetadata) (r r' : RpcUrl) (hr : tx.rpc = some r)
    (h : bundle_step args env tx = .ok (tx', r')) : tx'.rpc = some r ∧ r' = r := by
  unfold bundle_step at h
  rw [hr] at h
  obtain ⟨h1, h2⟩ := bundle_step_core_rpc args env tx tx' r r' h
  exact ⟨h1.trans hr, h2⟩

theorem bundle_go_runs (args : ScriptArgs) (env : Env) :
    ∀ (txs buf : List TransactionWithMetadata) (gs : List (List TransactionWithMetadata)),
      (∀ t ∈ txs, t.rpc.isSome = true) →
      bundle_go args env buf txs = .ok gs → txs ≠ [] →
      gs.map (List.map TransactionWithMetadata.rpc) =
        consFirst (buf.map TransactionWithMetadata.rpc)
          ((runsBy TransactionWithMetadata.rpc txs).map
            (List.map TransactionWithMetadata.rpc)) := by
  intro txs
  induction txs with
  | nil => exact fun buf gs _ _ hne => absurd rfl hne
  | cons tx rest ih =>
      intro buf gs hall h _
      obtain ⟨r, hr⟩ := Option.isSome_iff_exists.mp (hall tx (List.mem_cons_self tx rest))
      cases rest with
      | nil =>
          unfold bundle_go at h
          rcases hbs : bundle_step args env tx with e | ⟨tx', r'⟩ <;> simp only [hbs] at h
          · exact Except.noConfusion h
          · obtain ⟨htx', hr'⟩ := bundle_step_rpc args env tx tx' r r' hr hbs
            injection h with h1
            subst h1
            simp [runsBy, consFirst, htx', hr]
      | cons next rest' =>
          unfold bundle_go at h
          rcases hbs : bundle_step args env tx with e | ⟨tx', r'⟩ <;> simp only [hbs] at h
          · exact Except.noConfusion h
          · obtain ⟨htx', hr'⟩ := bundle_step_rpc args env tx tx' r r' hr hbs
            rw [hr'] at h
            by_cases hcond : next.rpc = some r
            · rw [if_pos hcond] at h
              have hrec := ih (buf ++ [tx']) gs
                (fun t ht => hall t (List.mem_cons_of_mem _ ht)) h (by simp)
              rw [hrec]
              rcases hrun : runsBy TransactionWithMetadata.rpc (next :: rest') with _ | ⟨g, gs'⟩
              · exact absurd hrun (runsBy_ne_nil _ next rest')
              · have hfx : tx.rpc = next.rpc := by rw [hr, hcond]
                have hsplit : runsBy TransactionWithMetadata.rpc (tx :: next :: rest') =
                    (tx :: g) :: gs' := by
                  unfold runsBy
                  simp only [hrun]
                  rw [if_pos hfx]
                rw [hsplit]
                simp [consFirst, List.map_append, htx', hr, List.append_assoc]
            · rw [if_neg hcond] at h
              rcases hrec2 : bundle_go args env [] (next :: rest') with e | gs2 <;>
                simp only [hrec2] at h
              · exact Except.noConfusion h
              · injection h with h1
                subst h1
                have hrec := ih [] gs2
                  (fun t ht => hall t (List.mem_cons_of_mem _ ht)) hrec2 (by simp)
                rcases hrun : runsBy TransactionWithMetadata.rpc (next :: rest') with _ | ⟨g, gs'⟩
                · exact absurd hrun (runsBy_ne_nil _ next rest')
                · have hfx : tx.rpc ≠ next.rpc := by
                    rw [hr]
                    exact fun hh => hcond hh.symm
                  have hsplit : runsBy TransactionWithMetadata.rpc (tx :: next :: rest') =
                      [tx] :: g :: gs' := by
                    unfold runsBy
                    simp only [hrun]
                    rw [if_neg hfx]
                  rw [hsplit]
                  rw [hrun] at hrec
                  simp only [consFirst, List.nil_append, List.map_cons] at hrec ⊢
                  rw [hrec]
                  simp [List.map_append, htx', hr]

/-- The endpoint a transaction resolves to: its own `rpc` field, or the CLI
fork url when the field is absent. -/
def resolved_rpc (args : ScriptArgs) (t : TransactionWithMetadata) : Option RpcUrl :=
  match t.rpc with
  | some r => some r
  | none => args.fork_url

/-- C6 as stated: `bundle_transactions` partitions the input stream,
preserving order, into maximal contiguous runs of equal (resolved) rpc
endpoint — its output groups, read through their endpoints, are exactly the
maximal runs of the input's resolved endpoints. -/
def bundle_partition_claim : Prop :=
  ∀ (args : ScriptArgs) (env : Env) (txs : List TransactionWithMetadata)
    (groups : List (List TransactionWithMetadata)),
    bundle_transactions args env txs = .ok groups →
    groups.map (List.map TransactionWithMetadata.rpc) =
      (runsBy (resolved_rpc args) txs).map (List.map (resolved_rpc args))

/-- Flags for the bundling instantiations: skip the on-chain simulation and
fall back to fork url `A`. -/
def argsBundle : ScriptArgs :=
  { sampleArgs with skip_simulation := true, fork_url := some "A" }

/-- A provider on chain 1, classified legacy, with a cached gas price. -/
def provA : ProviderInfo where
  chain := 1
  is_legacy := true
  gas_price := some 2

/-- An environment whose provider registry always initializes. -/
def envBundle : Env := { sampleEnv with get_or_init := fun _ _ => some provA }

/-- A transaction targeting endpoint `A`. -/
def txA : TransactionWithMetadata := withMeta txLegacy (some "A")

/-- A transaction targeting endpoint `B`. -/
def txB : TransactionWithMetadata := withMeta txLegacy (some "B")

/-- A transaction with no explicit endpoint. -/
def txNoRpc : TransactionWithMetadata := withMeta txLegacy none

/-- C6 counterexample: with fork url `A`, a stream whose first transaction
targets `A` explicitly and whose second has no explicit endpoint resolves to
the endpoints `A`, `A` — one maximal run — yet the source closes the first
sequence when it peeks the differing raw `rpc` field, producing two
sequences. -/
theorem bundle_partition_claim_counterexample : ¬ bundle_partition_claim := by
  intro h
  have h1 := h argsBundle envBundle [txA, txNoRpc]
      [[{ txA with transaction := { txLegacy with chainId := some 1 } }],
        [{ txNoRpc with rpc := some "A", transaction := { txLegacy with chainId := some 1 } }]]
      rfl
  exact absurd h1 (by decide)

/-- C6 amended: `bundle_transactions` closes a sequence exactly when the
next transaction's raw `rpc` field differs from the current resolved
endpoint or the stream ends; in particular, when every transaction carries
an explicit endpoint the output groups are precisely the maximal contiguous
runs of equal endpoint, endpoints `A`,`B`,`A` yield three sequences, and
`A`,`A`,`B`,`B`,`A` yield three sequences of lengths 2, 2, 1. -/
theorem bundle_transactions_partition :
    (∀ (args : ScriptArgs) (env : Env) (txs : List TransactionWithMetadata)
      (groups : List (List TransactionWithMetadata)),
      (∀ t ∈ txs, t.rpc.isSome = true) →
      bundle_transactions args env txs = .ok groups →
      groups.map (List.map TransactionWithMetadata.rpc) =
        (runsBy TransactionWithMetadata.rpc txs).map
          (List.map TransactionWithMetadata.rpc)) ∧
    (bundle_transactions argsBundle envBundle [txA, txB, txA]).map
        (fun gs => gs.map List.length) = .ok [1, 1, 1] ∧
    (bundle_transactions argsBundle envBundle [txA, txA, txB, txB, txA]).map
        (fun gs => gs.map List.length) = .ok [2, 2, 1] := by
  refine ⟨?_, rfl, rfl⟩
  intro args env txs groups hall h
  cases txs with
  | nil => exact Except.noConfusion h
  | cons t ts =>
      unfold bundle_transactions at h
      rcases hgo : bundle_go args env [] (t :: ts) with e | gs <;> simp only [hgo] at h
      · exact Except.noConfusion h
      · have hmain := bundle_go_runs args env (t :: ts) [] gs hall hgo (by simp)
        rcases hr2 : runsBy TransactionWithMetadata.rpc (t :: ts) with _ | ⟨g, gs'⟩
        · exact absurd hr2 (runsBy_ne_nil TransactionWithMetadata.rpc t ts)
        · rw [hr2] at hmain
          simp only [List.map_cons, List.map_nil, consFirst, List.nil_append] at hmain
          have hgroups : gs = groups := by
            split at h
            · injection h with h1
            · split at h
              · injection h with h1
              · exact Except.noConfusion h
          rw [← hgroups]
          simp only [List.map_cons]
          exact hmain

/-- Witness for C6 amended: two explicitly addressed transactions on
distinct endpoints bundle into two sequences matching the maximal runs. -/
theorem bundle_transactions_partition_witness :
    [[{ txA with transaction := { txLegacy with chainId := some 1 } }],
      [{ txB with transaction := { txLegacy with chainId := some 1 } }]].map
        (List.map TransactionWithMetadata.rpc) =
      (runsBy TransactionWithMetadata.rpc [txA, txB]).map
        (List.map TransactionWithMetadata.rpc) :=
  bundle_transactions_partition.1 argsBundle envBundle [txA, txB]
    [[{ txA with transaction := { txLegacy with chainId := some 1 } }],
      [{ txB with transaction := { txLegacy with chainId := some 1 } }]]
    (by decide) rfl

theorem finalize_for_chain_gas (tx : TransactionWithMetadata) (p : ProviderInfo) :
    (finalize_for_chain tx p).transaction.gas = tx.transaction.gas := by
  unfold finalize_for_chain TransactionWithMetadata.change_type
  rcases h : p.is_legacy <;> simp [h]

/-- C9: on a different-gas-calc chain, a failed gas re-estimation during
multi-chain pre-broadcast bundling restores the transaction's prior gas
limit and bundling continues successfully, whereas a failed re-estimation
during actual submission in `broadcast` propagates as an error after the
single estimation call made on the gas-cleared transaction, with nothing
signed or submitted. -/
theorem gas_reestimation_failure_paths :
    (∀ (args : ScriptArgs) (env : Env) (tx : TransactionWithMetadata) (r : RpcUrl)
      (p : ProviderInfo) (g : Nat),
      args.skip_simulation = false → tx.rpc = some r →
      env.get_or_init r args.legacy = some p →
      env.has_different_gas_calc p.chain = true →
      tx.transaction.gas = some g →
      env.estimate_gas { (finalize_for_chain tx p).transaction with gas := none } = none →
      ∃ tx', bundle_step args env tx = .ok (tx', r) ∧ tx'.transaction.gas = some g) ∧
    (∀ (args : ScriptArgs) (env : Env) (signer : WalletSigner) (tx : TypedTransaction)
      (zk : Option ZkTransaction),
      (env.has_different_gas_calc signer.chain_id || args.skip_simulation) = true →
      env.estimate_gas { tx with gas := none } = none →
      broadcast args env signer tx zk =
        (.error (.bail "Failed to estimate gas for tx"),
          [Call.estimateGas { tx with gas := none }])) := by
  constructor
  · intro args env tx r p g hskip hrpc hprov hdiff hgas hest
    have hgas2 : (finalize_for_chain tx p).transaction.gas = some g :=
      (finalize_for_chain_gas tx p).trans hgas
    refine ⟨{ finalize_for_chain tx p with
        transaction := { (finalize_for_chain tx p).transaction with gas := some g } },
      ?_, rfl⟩
    unfold bundle_step
    rw [hrpc]
    unfold bundle_step_core
    simp only [hprov, hskip, hdiff, hgas2, Bool.false_eq_true, if_false, if_true,
      estimate_gas_fail args env (finalize_for_chain tx p).transaction hest]
  · intro args env signer tx zk hcond hest
    have hest2 : env.estimate_gas
        { ({ tx with gas := none } : TypedTransaction) with gas := none } = none := hest
    unfold broadcast
    split
    · rw [estimate_gas_fail args env { tx with gas := none } hest2]
    · next hfalse => exact absurd hcond hfalse

/-- An environment on a different-gas-calc chain whose gas estimation
endpoint always fails. -/
def envEstFail : Env :=
  { sampleEnv with
      get_or_init := fun _ _ => some provA,
      has_different_gas_calc := fun _ => true,
      estimate_gas := fun _ => none }

/-- Witness for C9: a concrete transaction with gas limit 21000 on a
different-gas-calc chain whose estimation endpoint fails — bundling keeps
the limit at 21000, while `broadcast` fails after its estimation call. -/
theorem gas_reestimation_failure_paths_witness :
    (∃ tx', bundle_step sampleArgs envEstFail txA = .ok (tx', "A") ∧
        tx'.transaction.gas = some 21000) ∧
    broadcast sampleArgs envEstFail ⟨1⟩ txLegacy none =
      (.error (.bail "Failed to estimate gas for tx"),
        [Call.estimateGas { txLegacy with gas := none }]) :=
  ⟨gas_reestimation_failure_paths.1 sampleArgs envEstFail txA "A" provA 21000
      rfl rfl rfl rfl rfl rfl,
    gas_reestimation_failure_paths.2 sampleArgs envEstFail ⟨1⟩ txLegacy none
      (by decide) rfl⟩

/-- Modelled from the spec: `TransactionWithMetadata::from_zk_tx_request`
(transaction module, not under src/): wrap a broadcastable transaction,
carrying over its zksync metadata; per §3 of the specification the
`isFixedGasLimit` flag freezes a user-provided gas limit, so it is set when
the request already carries one. -/
def from_zk_tx_request (btx : BroadcastableTransaction) : TransactionWithMetadata where
  transaction := btx.transaction
  rpc := btx.rpc
  is_fixed_gas_limit := btx.transaction.gas.isSome
  zk := btx.zk

/-- `ScriptArgs::fills_transactions_with_gas`: with `--skip-simulation` the
broadcastable transactions are wrapped directly; otherwise the on-chain
simulation (an external collaborator) produces the gas-filled
transactions, and its failure is wrapped into an error. -/
def fills_transactions_with_gas (args : ScriptArgs) (env : Env)
    (txs : List BroadcastableTransaction) :
    Except Err (List TransactionWithMetadata) :=
  if args.skip_simulation then .ok (txs.map from_zk_tx_request)
  else
    match env.onchain_simulation txs with
    | none => .error (.bail "Transaction failed when running the on-chain simulation")
    | some filled => .ok filled

/-- `ScriptArgs::create_script_sequences`: for a non-empty transaction list,
fill gas and bundle into per-chain sequences; for an empty list, fail with
the no-onchain-transactions error exactly when `--broadcast` was passed and
return no sequences otherwise. -/
def create_script_sequences (args : ScriptArgs) (env : Env)
    (txs : List BroadcastableTransaction) :
    Except Err (List (List TransactionWithMetadata)) :=
  if txs.isEmpty then
    if args.broadcast then .error (.bail "No onchain transactions generated in script")
    else .ok []
  else
    match fills_transactions_with_gas args env txs with
    | .error e => .error e
    | .ok gas_filled => bundle_transactions args env gas_filled

/-- C8: given an empty transaction list, `create_script_sequences` fails
with the no-onchain-transactions error exactly when `--broadcast` is set,
and otherwise returns an empty list of sequences without error. -/
theorem create_script_sequences_empty (args : ScriptArgs) (env : Env) :
    create_script_sequences args env [] =
      (if args.broadcast then
        .error (.bail "No onchain transactions generated in script")
      else .ok []) := rfl

/-- Modelled from the spec: `ScriptSequence::add_pending` (sequence module,
not under src/): record the hash of a submitted transaction among the
pending hashes. -/
def ScriptSequence.add_pending (seq : ScriptSequence) (_index : Nat) (h : TxHash) :
    ScriptSequence :=
  { seq with pending := seq.pending ++ [h] }

/-- The per-transaction entry `send_transactions` builds before the batch
loop: look up the per-sender kind, set the chain id and fill the fee fields
from the one-time snapshot (a user `--with-gas-price` overrides everything,
fee-market shapes take the EIP-1559 pair with an optional priority
override and panic when the snapshot has no pair, legacy shapes take the
snapshot gas price and panic when it is absent). -/
def build_entry (args : ScriptArgs) (chain : Nat) (gas_price : Option Nat)
    (eip1559_fees : Option (Nat × Nat)) (send_kind : SendTransactionsKind)
    (twm : TransactionWithMetadata) :
    Except Err (TypedTransaction × Option ZkTransaction × SendTransactionKind × Bool) :=
  match twm.transaction.from' with
  | none => .error (.panic "No sender for onchain transaction!")
  | some fromAddr =>
      match send_kind.for_sender fromAddr with
      | .error e => .error e
      | .ok kind =>
          let tx := { twm.transaction with chainId := some chain }
          match args.with_gas_price with
          | some p => .ok (tx.set_gas_price p, twm.zk, kind, twm.is_fixed_gas_limit)
          | none =>
              match tx.txType with
              | .eip1559 =>
                  match eip1559_fees with
                  | none => .error (.panic "Could not get eip1559 fee estimation.")
                  | some fees =>
                      let prio :=
                        match args.priority_gas_price with
                        | some pg => pg
                        | none => fees.2
                      let txFee := { tx with maxPriorityFeePerGas := some prio }
                      .ok ({ txFee with maxFeePerGas := some fees.1 },
                        twm.zk, kind, twm.is_fixed_gas_limit)
              | .legacy =>
                  match gas_price with
                  | none => .error (.panic "Could not get gas_price.")
                  | some gp =>
                      .ok (tx.set_gas_price gp, twm.zk, kind, twm.is_fixed_gas_limit)

/-- The sequential arm of the batch loop: await each hash, record it as
pending and poll its receipt before the next submission. -/
def run_batch_seq (args : ScriptArgs) (env : Env) :
    List (TypedTransaction × Option ZkTransaction × SendTransactionKind × Bool) →
    ScriptSequence → Nat → Except Err (ScriptSequence × Nat) × List Call
  | [], seq, idx => (.ok (seq, idx), [])
  | (tx, zk, kind, fixed) :: es, seq, idx =>
      let sent := send_transaction args env tx zk kind true fixed
      match sent.1 with
      | .error e => (.error e, sent.2)
      | .ok h =>
          let seq1 := seq.add_pending idx h
          match env.clear_pendings seq1 with
          | none => (.error (.bail "clearing pending transactions failed"), sent.2)
          | some seq2 =>
              let rest := run_batch_seq args env es seq2 (idx + 1)
              (rest.1, sent.2 ++ rest.2)

/-- The submission phase of a parallel batch: evaluate every send of the
batch, collecting results and calls in submission order (the completion
ordering of the width-7 buffer is a scheduling detail outside this
model). -/
def send_batch_parallel (args : ScriptArgs) (env : Env) :
    List (TypedTransaction × Option ZkTransaction × SendTransactionKind × Bool) →
    List (Except Err TxHash) × List Call
  | [] => ([], [])
  | (tx, zk, kind, fixed) :: es =>
      let sent := send_transaction args env tx zk kind false fixed
      let rest := send_batch_parallel args env es
      (sent.1 :: rest.1, sent.2 ++ rest.2)

/-- Drain a parallel batch's results, assigning each hash to the next
index. -/
def drain_hashes : List (Except Err TxHash) → ScriptSequence → Nat →
    Except Err (ScriptSequence × Nat)
  | [], seq, idx => .ok (seq, idx)
  | .error e :: _, _, _ => .error e
  | .ok h :: hs, seq, idx => drain_hashes hs (seq.add_pending idx h) (idx + 1)

/-- The parallel arm of the batch loop: submit the whole batch, drain the
hashes, checkpoint, then poll all the batch's receipts. -/
def run_batch_parallel (args : ScriptArgs) (env : Env)
    (batch : List (TypedTransaction × Option ZkTransaction × SendTransactionKind × Bool))
    (seq : ScriptSequence) (idx : Nat) : Except Err (ScriptSequence × Nat) × List Call :=
  let sent := send_batch_parallel args env batch
  match drain_hashes sent.1 seq idx with
  | .error e => (.error e, sent.2)
  | .ok (seq1, idx1) =>
      match env.save with
      | none => (.error (.bail "failed to save sequence"), sent.2)
      | some _ =>
          match env.clear_pendings seq1 with
          | none => (.error (.bail "clearing pending transactions failed"), sent.2)
          | some seq2 => (.ok (seq2, idx1), sent.2)

/-- Split a list into chunks of `n` (the batch size), driven by a length
fuel. -/
def chunksGo {α : Type} (n : Nat) : List α → Nat → List (List α)
  | [], _ => []
  | _ :: _, 0 => []
  | xs, fuel + 1 => xs.take n :: chunksGo n (xs.drop n) fuel

/-- Split a list into chunks of `n` (the batch size). -/
def chunks {α : Type} (n : Nat) (xs : List α) : List (List α) := chunksGo n xs xs.length

/-- The batch loop of `send_transactions`: run each batch of up to 100
entries in the chosen mode and checkpoint-save after every batch. -/
def run_batches (args : ScriptArgs) (env : Env) (sequential : Bool) :
    List (List (TypedTransaction × Option ZkTransaction × SendTransactionKind × Bool)) →
    ScriptSequence → Nat → Except Err ScriptSequence × List Call
  | [], seq, _ => (.ok seq, [])
  | b :: bs, seq, idx =>
      let res := if sequential then run_batch_seq args env b seq idx
                 else run_batch_parallel args env b seq idx
      match res.1 with
      | .error e => (.error e, res.2)
      | .ok (seq1, idx1) =>
          match env.save with
          | none => (.error (.bail "failed to save sequence"), res.2)
          | some _ =>
              let rest := run_batches args env sequential bs seq1 idx1
              (rest.1, res.2 ++ rest.2)

/-- The final tally of `send_transactions`: fold gas used, effective gas
price and amount paid over the receipts (missing fields default to
zero). -/
def sequence_totals (seq : ScriptSequence) : Nat × Nat × Nat :=
  seq.receipts.foldl
    (fun acc receipt =>
      (acc.1 + receipt.gas_used.getD 0,
        acc.2.1 + receipt.effective_gas_price.getD 0,
        acc.2.2 + receipt.gas_used.getD 0 * receipt.effective_gas_price.getD 0))
    (0, 0, 0)

/-- The closing summary of `send_transactions`: total gas, the average gas
price `total_gas_price / receipts.len()` and the total paid.  The `U256`
division of the source panics on a zero divisor, which the explicit branch
models. -/
def sequence_summary (seq : ScriptSequence) : Except Err (Nat × Nat × Nat) :=
  let totals := sequence_totals seq
  if seq.receipts.length = 0 then .error (.panic "division by zero")
  else .ok (totals.1, totals.2.1 / seq.receipts.length, totals.2.2)

/-- `ScriptArgs::send_transactions`: when not everything is broadcast yet,
resolve the send kind, decide sequentiality, snapshot fees, build the
entries for the tail, run the batches, and finish with the receipt summary;
when nothing remains, go straight to the summary. -/
def send_transactions (args : ScriptArgs) (env : Env) (seq : ScriptSequence)
    (signers : List (Address × WalletSigner)) : Except Err Unit × List Call :=
  let already_broadcasted := seq.receipts.length
  if already_broadcasted < seq.transactions.length then
    match resolve_send_kind args env seq signers with
    | (.error e, t1) => (.error e, t1)
    | (.ok (send_kind, chain), t1) =>
        let seqMode := sequential_broadcast args env send_kind chain
        match fee_snapshot env seq with
        | (.error e, t2) => (.error e, t1 ++ t2)
        | (.ok (gas_price, eip1559_fees), t2) =>
            match (seq.transactions.drop already_broadcasted).mapM
                (build_entry args chain gas_price eip1559_fees send_kind) with
            | .error e => (.error e, t1 ++ t2)
            | .ok entries =>
                match run_batches args env seqMode (chunks 100 entries) seq 0 with
                | (.error e, t3) => (.error e, t1 ++ t2 ++ t3)
                | (.ok seq', t3) =>
                    ((sequence_summary seq').map (fun _ => ()), t1 ++ t2 ++ t3)
  else ((sequence_summary seq).map (fun _ => ()), [])

/-- C10: on a sequence with zero transactions and zero receipts,
`send_transactions` skips the broadcast block and reaches the average gas
price computation, whose division by `receipts.len() = 0` panics instead of
returning success — for every environment, flag set and signer map. -/
theorem send_transactions_empty_division_panic (args : ScriptArgs) (env : Env)
    (signers : List (Address × WalletSigner)) :
    (send_transactions args env { transactions := [], receipts := [], pending := [] }
        signers).1 = .error (.panic "division by zero") := rfl
